import Mathlib

/-!
Verification of the result-aggregation and adaptive-reporting pipeline of a
Python code-quality orchestrator.  The definitions below are a shallow
embedding of the program's data model and operations:

* `Severity`, `Issue`, `CheckResult` embed `models.py`;
* the stub scanner, the external-tool runners and the aggregator embed
  `checker.py` (subprocess launches and filesystem queries are passed in as
  explicit parameters / outcomes, since they are I/O);
* `FileCheckState`, the per-file tracker and the hook handler embed
  `modules/hooks-python-check/amplifier_module_hooks_python_check/__init__.py`.

Theorems `C1` .. `C10` settle the frozen claims about this pipeline.
-/

namespace PyCheck

/-- Substring test on lists of characters: `sub` occurs somewhere in `s`
(Python's `sub in s`). -/
def containsSub : List Char → List Char → Bool
  | [], sub => sub.isEmpty
  | c :: s', sub => sub.isPrefixOf (c :: s') || containsSub s' sub

/-- Python's `sub in s` on strings. -/
def strContains (s sub : String) : Bool :=
  containsSub s.toList sub.toList

/-- Last path component (Python `Path(p).name` for the paths we model). -/
def splitOnChar (sep : Char) : List Char → List (List Char)
  | [] => [[]]
  | c :: cs =>
    let r := splitOnChar sep cs
    if c = sep then [] :: r
    else
      match r with
      | h :: t => (c :: h) :: t
      | [] => [[c]]

def pathName (p : String) : String :=
  String.mk ((splitOnChar '/' p.toList).getLastD [])

/-- Index (from the front) of the last `.` in a list of characters. -/
def lastDotIdx : List Char → Option Nat
  | [] => none
  | c :: cs =>
    match lastDotIdx cs with
    | some j => some (j + 1)
    | none => if c = '.' then some 0 else none

/-- Python `Path(p).suffix`: the extension of the final component, empty when
the final component has no dot after its first character. -/
def pathSuffix (p : String) : String :=
  let name := (pathName p).toList
  match lastDotIdx name with
  | some j => if 0 < j then String.mk (name.drop j) else ""
  | none => ""

/-! ## `models.py` : `Severity`, `Issue`, `CheckResult` -/

/-- `Severity` enum of `models.py`. -/
inductive Severity where
  | error
  | warning
  | info
deriving DecidableEq, Repr

/-- `Severity.value`: the string payload of each enum member. -/
def Severity.value : Severity → String
  | .error => "error"
  | .warning => "warning"
  | .info => "info"

/-- `Issue` dataclass of `models.py`. -/
structure Issue where
  file : String
  line : Nat
  column : Nat
  code : String
  message : String
  severity : Severity
  source : String
  suggestion : Option String := none
  end_line : Option Nat := none
  end_column : Option Nat := none
deriving DecidableEq, Repr

/-- `CheckResult` dataclass of `models.py`. -/
structure CheckResult where
  issues : List Issue := []
  files_checked : Nat := 0
  checks_run : List String := []
deriving DecidableEq, Repr

/-- `CheckResult.error_count`. -/
def CheckResult.error_count (r : CheckResult) : Nat :=
  (r.issues.filter (fun i => i.severity = Severity.error)).length

/-- `CheckResult.warning_count`. -/
def CheckResult.warning_count (r : CheckResult) : Nat :=
  (r.issues.filter (fun i => i.severity = Severity.warning)).length

/-- `CheckResult.info_count`. -/
def CheckResult.info_count (r : CheckResult) : Nat :=
  (r.issues.filter (fun i => i.severity = Severity.info)).length

/-- `CheckResult.exit_code`: 2 when there are errors, else 1 when there are
warnings, else 0. -/
def CheckResult.exit_code (r : CheckResult) : Nat :=
  if 0 < r.error_count then 2
  else if 0 < r.warning_count then 1
  else 0

/-- `CheckResult.success`: no errors (warnings tolerated). -/
def CheckResult.success (r : CheckResult) : Bool :=
  r.error_count = 0

/-- `CheckResult.clean`: no issues at all. -/
def CheckResult.clean (r : CheckResult) : Bool :=
  r.issues.length = 0

/-- `CheckResult.merge`: concatenate issues, take the max of files-checked,
deduplicate the concatenated check names (Python `list(set(a + b))`, modelled
up to ordering by `List.dedup`). -/
def CheckResult.merge (a b : CheckResult) : CheckResult :=
  { issues := a.issues ++ b.issues
    files_checked := max a.files_checked b.files_checked
    checks_run := (a.checks_run ++ b.checks_run).dedup }

/-- The check-enable switches of `CheckConfig` (`models.py`); the pattern
lists keep their defaults and are embedded separately where used. -/
structure CheckConfig where
  enable_ruff_format : Bool := true
  enable_ruff_lint : Bool := true
  enable_pyright : Bool := true
  enable_stub_check : Bool := true
deriving DecidableEq, Repr

/-! ## `checker.py` : stub scanner

The six default regular expressions of `CheckConfig.stub_patterns` are simple
enough to embed with a small executable matcher: a pattern is a sequence of
tokens (case-insensitive literal, word boundary `\b`, whitespace run `\s+`,
`.*`, one-of character class), matched with explicit fuel so every
evaluation reduces in the kernel.  `re.search` with `re.IGNORECASE` is
`reSearch`. -/

/-- One token of an embedded regular expression. -/
inductive Pat where
  | lit : List Char → Pat
  | wb : Pat
  | ws : Pat
  | anyStar : Pat
  | oneOf : List Char → Pat
deriving DecidableEq, Repr

/-- `\w` for the ASCII lines we model (`re` word character). -/
def isWordChar (c : Char) : Bool := c.isAlphanum || c = '_'

/-- Word-character test on an optional neighbouring character. -/
def wordOpt : Option Char → Bool
  | some c => isWordChar c
  | none => false

/-- Size bound used as fuel. -/
def patSize : Pat → Nat
  | .lit cs => cs.length + 1
  | _ => 1

def patsSize (ps : List Pat) : Nat := (ps.map patSize).sum

/-- Match a token sequence at the head of `cs`, with the previous character
`prev` for word boundaries; the remainder of the line may be nonempty
(`re.search` semantics). -/
def matchAtF : Nat → List Pat → Option Char → List Char → Bool
  | 0, _, _, _ => false
  | _ + 1, [], _, _ => true
  | fuel + 1, .wb :: rest, prev, cs =>
    (wordOpt prev != wordOpt cs.head?) && matchAtF fuel rest prev cs
  | fuel + 1, .lit [] :: rest, prev, cs => matchAtF fuel rest prev cs
  | fuel + 1, .lit (p :: ps) :: rest, _, cs =>
    match cs with
    | [] => false
    | c :: cs' =>
      (c.toLower = p.toLower) && matchAtF fuel (.lit ps :: rest) (some c) cs'
  | fuel + 1, .ws :: rest, _, cs =>
    match cs with
    | [] => false
    | c :: cs' =>
      c.isWhitespace &&
        (matchAtF fuel rest (some c) cs' || matchAtF fuel (.ws :: rest) (some c) cs')
  | fuel + 1, .anyStar :: rest, prev, cs =>
    matchAtF fuel rest prev cs ||
      (match cs with
       | [] => false
       | c :: cs' => matchAtF fuel (.anyStar :: rest) (some c) cs')
  | fuel + 1, .oneOf set :: rest, _, cs =>
    match cs with
    | [] => false
    | c :: cs' => set.contains c && matchAtF fuel rest (some c) cs'

def matchAt (ps : List Pat) (prev : Option Char) (cs : List Char) : Bool :=
  matchAtF (patsSize ps + cs.length + 1) ps prev cs

/-- Try every start position (`re.search`). -/
def searchFrom (ps : List Pat) (prev : Option Char) : List Char → Bool
  | [] => matchAt ps prev []
  | c :: cs => matchAt ps prev (c :: cs) || searchFrom ps (some c) cs

/-- `re.search(pattern, line, re.IGNORECASE)` as a boolean. -/
def reSearch (ps : List Pat) (line : String) : Bool :=
  searchFrom ps none line.toList

/-- `r"raise\s+NotImplementedError\b"`. -/
def notImplPat : List Pat :=
  [.lit "raise".toList, .ws, .lit "NotImplementedError".toList, .wb]

/-- The default `CheckConfig.stub_patterns` list. -/
def stubPatterns : List (List Pat × String) :=
  [([.wb, .lit "TODO".toList, .wb], "TODO comment"),
   ([.wb, .lit "FIXME".toList, .wb], "FIXME comment"),
   ([.wb, .lit "XXX".toList, .wb], "XXX marker"),
   (notImplPat, "NotImplementedError"),
   ([.lit "return".toList, .ws, .oneOf ['\"', '\''], .lit "not".toList,
     .ws, .lit "implemented".toList], "Not implemented return"),
   ([.lit "#".toList, .anyStar, .lit "coming".toList, .ws,
     .lit "soon".toList], "Coming soon comment")]

/-- Python `s.strip()` (whitespace strip) on the lines we model. -/
def pyStrip (s : String) : String :=
  String.mk (((s.toList.dropWhile Char.isWhitespace).reverse.dropWhile
    Char.isWhitespace).reverse)

/-- Python `s[:n]`. -/
def strTake (s : String) (n : Nat) : String := String.mk (s.toList.take n)

/-- Python `sep.join(parts)`. -/
def strJoin (sep : String) (parts : List String) : String :=
  String.mk (((parts.map String.toList).intersperse sep.toList).flatten)

/-- Python `s.lower()` on the ASCII strings we model. -/
def pyLower (s : String) : String := String.mk (s.toList.map Char.toLower)

/-- Python `range(a, b)` (empty when `b ≤ a`; `a` is already clamped at 0 by
truncated subtraction where the source writes `max(0, ...)`). -/
def pyRange (a b : Nat) : List Nat := List.range' a (b - a)

/-- `"@abstractmethod" in s or "@abc.abstractmethod" in s`. -/
def abstractMarker (s : String) : Bool :=
  strContains s "@abstractmethod" || strContains s "@abc.abstractmethod"

/-- `PythonChecker._is_legitimate_pattern`: the suppression heuristics, an
ordered disjunction exactly as in the source (`line_num` is 1-based, `lines`
is 0-indexed, so `range(max(0, line_num - 3), line_num)` covers the current
line and the two lines above it). -/
def isLegitimatePattern (filePath : String) (lineNum : Nat) (line : String)
    (lines : List String) : Bool :=
  strContains (pyLower filePath) "test" ||
  (pathName filePath == "__init__.py" && (pyStrip line == "" || pyStrip line == "pass")) ||
  (strContains line "NotImplementedError" &&
    (pyRange (lineNum - 3) lineNum).any (fun i => abstractMarker (lines.getD i ""))) ||
  (pyStrip line == "pass" &&
    (pyRange (lineNum - 5) lineNum).any (fun i =>
      strContains (lines.getD i "") "class" &&
        (strContains (lines.getD i "") "Error" ||
         strContains (lines.getD i "") "Exception"))) ||
  (strContains line "pass" &&
    (pyRange (lineNum - 3) lineNum).any (fun i =>
      strContains (lines.getD i "") "@click.group" ||
      strContains (lines.getD i "") "@cli.group" ||
      strContains (lines.getD i "") "@click.command" ||
      strContains (lines.getD i "") "@cli.command")) ||
  ((pyStrip line == "pass" || pyStrip line == "...") &&
    strContains (strJoin "\n" (lines.take 50)) "Protocol")

/-- The inner pattern loop of `_check_file_for_stubs` for one line: one
warning-severity `STUB` issue per matching, non-legitimate pattern. -/
def lineStubIssues (filePath : String) (lines : List String) (lineNum : Nat)
    (line : String) : List Issue :=
  (stubPatterns.filter (fun pd =>
      reSearch pd.1 line && !isLegitimatePattern filePath lineNum line lines)).map
    (fun pd =>
      { file := filePath, line := lineNum, column := 1, code := "STUB",
        message := pd.2 ++ ": " ++ strTake (pyStrip line) 60,
        severity := Severity.warning, source := "stub-check",
        suggestion := some "Remove placeholder or implement functionality" })

/-- `PythonChecker._check_file_for_stubs`, with the file content already
split into lines (`enumerate(lines, 1)` becomes an index walk). -/
def checkFileForStubs (filePath : String) (lines : List String) : List Issue :=
  (List.range lines.length).flatMap
    (fun i => lineStubIssues filePath lines (i + 1) (lines.getD i ""))

/-! ## `checker.py` : external-tool runners

Subprocess launches are I/O, so each runner takes the launch outcome as an
explicit argument: `Except.error ()` is a `FileNotFoundError` raised by
`subprocess.run`, and `Except.ok` carries the parsed machine-readable output
(an empty list doubles for empty stdout and for a swallowed
`json.JSONDecodeError`, both of which yield zero issues in the source). -/

/-- One record of ruff's JSON lint output, fields optional as in
`item.get(...)`. -/
structure RuffItem where
  code : Option String := none
  filename : Option String := none
  row : Option Nat := none
  col : Option Nat := none
  message : Option String := none
  fixMessage : Option (Option String) := none
  endRow : Option Nat := none
  endCol : Option Nat := none
deriving DecidableEq, Repr

/-- Translation of one ruff lint record into an `Issue`
(`PythonChecker._run_ruff_lint`, parse loop). -/
def ruffItemIssue (item : RuffItem) : Issue :=
  let code := item.code.getD ""
  { file := item.filename.getD ""
    line := item.row.getD 0
    column := item.col.getD 0
    code := code
    message := item.message.getD ""
    severity := if code.startsWith "E" || code.startsWith "F"
                then Severity.error else Severity.warning
    source := "ruff-lint"
    suggestion := match item.fixMessage with
                  | some m => some (m.getD "Fix available")
                  | none => none
    end_line := item.endRow
    end_column := item.endCol }

/-- `PythonChecker._run_ruff_lint`. -/
def runRuffLint (fix : Bool) (launch : Except Unit (List RuffItem)) :
    CheckResult :=
  match fix, launch with
  | _, .error _ =>
    { issues := [{ file := "", line := 0, column := 0, code := "TOOL-NOT-FOUND",
                   message := "ruff not found. Install with: uv add ruff",
                   severity := Severity.error, source := "ruff-lint" }]
      checks_run := ["ruff-lint"] }
  | _, .ok items =>
    { issues := items.map ruffItemIssue, checks_run := ["ruff-lint"] }

/-- One diagnostic of pyright's JSON output, fields optional as in
`diag.get(...)`. -/
structure PyrightDiag where
  file : String := ""
  severity : Option String := none
  rule : Option String := none
  message : String := ""
  startLine : Option Nat := none
  startChar : Option Nat := none
  endLine : Option Nat := none
  endChar : Option Nat := none
deriving DecidableEq, Repr

/-- The `severity_map` dict of `_run_pyright`. -/
def pyrightSeverityMap (s : String) : Option Severity :=
  if s = "error" then some Severity.error
  else if s = "warning" then some Severity.warning
  else if s = "information" then some Severity.info
  else none

/-- Translation of one pyright diagnostic into an `Issue`
(`PythonChecker._run_pyright`, parse loop): zero-based start/end coordinates
become one-based by adding 1. -/
def pyrightIssueOfDiag (d : PyrightDiag) : Issue :=
  { file := d.file
    line := d.startLine.getD 0 + 1
    column := d.startChar.getD 0 + 1
    code := d.rule.getD "pyright"
    message := d.message
    severity := (pyrightSeverityMap (d.severity.getD "error")).getD Severity.error
    source := "pyright"
    end_line := some (d.endLine.getD 0 + 1)
    end_column := some (d.endChar.getD 0 + 1) }

/-- `PythonChecker._run_pyright`. -/
def runPyright (launch : Except Unit (List PyrightDiag)) : CheckResult :=
  match launch with
  | .error _ =>
    { issues := [{ file := "", line := 0, column := 0, code := "TOOL-NOT-FOUND",
                   message := "pyright not found. Install with: uv add pyright",
                   severity := Severity.error, source := "pyright" }]
      checks_run := ["pyright"] }
  | .ok diags =>
    { issues := diags.map pyrightIssueOfDiag, checks_run := ["pyright"] }

/-- The diff-header scan of `_run_ruff_format`: walk stdout lines carrying
the current `--- ` filename, emit one warning per `+++ ` line under a
non-empty current file. -/
def parseFormatDiff : List String → Option String → List Issue
  | [], _ => []
  | l :: ls, cur =>
    if l.startsWith "--- " then
      let f := (l.drop 4).trim
      let f := if f.startsWith "a/" then f.drop 2 else f
      parseFormatDiff ls (some f)
    else if l.startsWith "+++ " && (cur.getD "") ≠ "" then
      { file := cur.getD "", line := 1, column := 1, code := "FORMAT",
        message := "File would be reformatted",
        severity := Severity.warning, source := "ruff-format",
        suggestion := some "Run with --fix to auto-format" : Issue }
        :: parseFormatDiff ls none
    else
      parseFormatDiff ls cur

/-- `PythonChecker._run_ruff_format`; the `ok` payload is the subprocess's
return code and stdout lines. -/
def runRuffFormat (fix : Bool) (launch : Except Unit (Int × List String)) :
    CheckResult :=
  match launch with
  | .error _ =>
    { issues := [{ file := "", line := 0, column := 0, code := "TOOL-NOT-FOUND",
                   message := "ruff not found. Install with: uv add ruff",
                   severity := Severity.error, source := "ruff-format" }]
      checks_run := ["ruff-format"] }
  | .ok (rc, stdoutLines) =>
    { issues := if rc ≠ 0 && !fix then parseFormatDiff stdoutLines none else []
      checks_run := ["ruff-format"] }

/-! ## `checker.py` : `PythonChecker.check_files` (aggregator)

`Path.is_dir`, `Path.cwd`, the Python-file count and the launches are I/O and
enter as parameters; the in-scope test `path.is_dir() or path.suffix in
{".py", ".pyi"}` and the sequential merge structure are embedded verbatim. -/

/-- The in-scope test of `check_files`. -/
def isValidPath (isDir : String → Bool) (p : String) : Bool :=
  isDir p || pathSuffix p = ".py" || pathSuffix p = ".pyi"

/-- The all-skipped sentinel issue of `check_files`. -/
def nonPythonSentinel (skipped : List String) : Issue :=
  { file := "", line := 0, column := 0, code := "NON-PYTHON",
    message := "No Python files to check. Skipped " ++
      toString skipped.length ++ " non-Python file(s): " ++
      String.intercalate ", " skipped ++
      ". python_check only supports .py and .pyi files."
    severity := Severity.info, source := "python-check" }

/-- The partially-skipped sentinel issue of `check_files`. -/
def skippedSentinel (skipped : List String) : Issue :=
  { file := "", line := 0, column := 0, code := "NON-PYTHON",
    message := "Skipped " ++ toString skipped.length ++
      " non-Python file(s): " ++ String.intercalate ", " skipped
    severity := Severity.info, source := "python-check" }

/-- `PythonChecker.check_files`. -/
def check_files (cfg : CheckConfig) (cwd : String) (isDir : String → Bool)
    (countPythonFiles : List String → Nat) (fix : Bool)
    (launchFormat : List String → Except Unit (Int × List String))
    (launchLint : List String → Except Unit (List RuffItem))
    (launchPyright : List String → Except Unit (List PyrightDiag))
    (runStubCheck : List String → CheckResult)
    (paths : List String) : CheckResult :=
  let paths := if paths.isEmpty then [cwd] else paths
  let valid := paths.filter (isValidPath isDir)
  let skipped := paths.filter (fun p => !isValidPath isDir p)
  if valid.isEmpty then
    { issues := [nonPythonSentinel skipped] }
  else
    let results : CheckResult :=
      { files_checked := countPythonFiles valid
        issues := if skipped.isEmpty then [] else [skippedSentinel skipped] }
    let results :=
      if cfg.enable_ruff_format then results.merge (runRuffFormat fix (launchFormat valid))
      else results
    let results :=
      if cfg.enable_ruff_lint then results.merge (runRuffLint fix (launchLint valid))
      else results
    let results :=
      if cfg.enable_pyright then results.merge (runPyright (launchPyright valid))
      else results
    let results :=
      if cfg.enable_stub_check then results.merge (runStubCheck valid)
      else results
    results

/-! ## `hooks-python-check` module : per-file state tracker and hook handler

The hook's I/O surface — `check_files` subprocess work, `Path.resolve`,
`Path.exists`, `fnmatch` against the configured patterns, and the
cwd-relative display path — enters `handleToolPost` as explicit parameters;
everything downstream of it is embedded from the source. -/

/-- `Issue.format_location` (`models.py`). -/
def Issue.format_location (i : Issue) : String :=
  i.file ++ ":" ++ toString i.line ++ ":" ++ toString i.column

/-- `Issue.format_short` (`models.py`). -/
def Issue.format_short (i : Issue) : String :=
  i.format_location ++ ": [" ++ i.code ++ "] " ++ i.message

/-- `FileCheckState`: per-file memory across repeated checks. -/
structure FileCheckState where
  error_count : Nat := 0
  warning_count : Nat := 0
  check_count : Nat := 0
deriving DecidableEq, Repr

/-- `FileCheckState.update`: return the previous counts, overwrite with the
new ones, bump the invocation counter. -/
def FileCheckState.update (s : FileCheckState) (errors warnings : Nat) :
    (Nat × Nat) × FileCheckState :=
  ((s.error_count, s.warning_count),
   { error_count := errors, warning_count := warnings,
     check_count := s.check_count + 1 })

/-- `FileCheckState.total_issues`. -/
def FileCheckState.total_issues (s : FileCheckState) : Nat :=
  s.error_count + s.warning_count

/-- The hook configuration fields of `PythonCheckHooks.__init__`. -/
structure HookConfig where
  enabled : Bool := true
  report_level : String := "warning"
  auto_inject : Bool := true
  verbosity : String := "normal"
  show_clean : Bool := true
deriving DecidableEq, Repr

/-- The `ICONS` dict of the hook module. -/
def ICONS (k : String) : String :=
  if k = "clean" then "✓"
  else if k = "minor" then "◐"
  else if k = "errors" then "●"
  else if k = "stubs" then "◑"
  else ""

/-- The `level_order` dict of `_filter_by_level`. -/
def levelOrder (s : String) : Option Nat :=
  if s = "error" then some 0
  else if s = "warning" then some 1
  else if s = "info" then some 2
  else none

/-- `PythonCheckHooks._filter_by_level`. -/
def filterByLevel (report_level : String) (issues : List Issue) : List Issue :=
  let min_level := (levelOrder report_level).getD 1
  issues.filter (fun i => (levelOrder i.severity.value).getD 0 ≤ min_level)

/-- The four display buckets of `_categorize_issues`. -/
structure Categories where
  type_errors : List Issue := []
  lint_errors : List Issue := []
  style_issues : List Issue := []
  stubs : List Issue := []
deriving DecidableEq, Repr

/-- `PythonCheckHooks._categorize_issues`. -/
def categorizeIssues (issues : List Issue) : Categories :=
  issues.foldl
    (fun cats issue =>
      if issue.source = "pyright" then
        { cats with type_errors := cats.type_errors ++ [issue] }
      else if issue.source = "stub-check" then
        { cats with stubs := cats.stubs ++ [issue] }
      else if issue.source = "ruff-format" then
        { cats with style_issues := cats.style_issues ++ [issue] }
      else if issue.severity = Severity.error then
        { cats with lint_errors := cats.lint_errors ++ [issue] }
      else
        { cats with style_issues := cats.style_issues ++ [issue] })
    {}

/-- Python's `'s' if n != 1 else ''`. -/
def pluralS (n : Nat) : String := if n ≠ 1 then "s" else ""

/-- `PythonCheckHooks._format_category_summary`. -/
def formatCategorySummary (cats : Categories) : String :=
  let te := cats.type_errors.length
  let le := cats.lint_errors.length
  let si := cats.style_issues.length
  let st := cats.stubs.length
  let parts :=
    (if te ≠ 0 then [toString te ++ " type error" ++ pluralS te] else []) ++
    (if le ≠ 0 then [toString le ++ " lint error" ++ pluralS le] else []) ++
    (if si ≠ 0 then [toString si ++ " style issue" ++ pluralS si] else []) ++
    (if st ≠ 0 then [toString st ++ " stub" ++ pluralS st] else [])
  if parts ≠ [] then strJoin ", " parts else "no issues"

/-- `PythonCheckHooks._get_severity_icon`. -/
def getSeverityIcon (result : CheckResult) (cats : Categories) : String :=
  if result.clean then ICONS "clean"
  else if !cats.stubs.isEmpty && cats.type_errors.isEmpty &&
      cats.lint_errors.isEmpty then ICONS "stubs"
  else if 0 < result.error_count then ICONS "errors"
  else ICONS "minor"

/-- `PythonCheckHooks._format_user_message` (`self.verbosity` passed in
front). -/
def formatUserMessage (verbosity : String) (result : CheckResult)
    (display_path : String) (file_state : FileCheckState)
    (prev_errors prev_warnings : Nat) : String × String :=
  let cats := categorizeIssues result.issues
  let icon := getSeverityIcon result cats
  let category_summary := formatCategorySummary cats
  let level :=
    if result.clean then "info"
    else if 0 < result.error_count then "error"
    else "warning"
  if result.clean then
    if 1 < file_state.check_count ∧ (0 < prev_errors ∨ 0 < prev_warnings) then
      (icon ++ " " ++ display_path ++ ": clean (was " ++
        toString (prev_errors + prev_warnings) ++ " issues)", "info")
    else
      (icon ++ " " ++ display_path ++ ": clean", "info")
  else if verbosity = "minimal" then
    let total := result.issues.length
    (icon ++ " " ++ display_path ++ ": " ++ toString total ++ " issue" ++
      pluralS total, level)
  else
    let message := icon ++ " " ++ display_path ++ ": " ++ category_summary
    let message :=
      if 1 < file_state.check_count then
        if result.error_count + result.warning_count <
            prev_errors + prev_warnings then
          message ++ " (was " ++ toString (prev_errors + prev_warnings) ++ ")"
        else message
      else message
    (message, level)

/-- Pad on the right with spaces to width `n` (Python `f"{x:<4}"`). -/
def padRightTo (s : String) (n : Nat) : String :=
  s ++ String.mk (List.replicate (n - s.length) ' ')

/-- `PythonCheckHooks._format_detailed_issues` (`max_issues` passed
explicitly; the source default is 5). -/
def formatDetailedIssues (result : CheckResult) (max_issues : Nat) : String :=
  let sorted_issues := result.issues.mergeSort (fun a b =>
    let ka := if a.severity = Severity.error then 0 else 1
    let kb := if b.severity = Severity.error then 0 else 1
    ka < kb || (ka = kb && a.line ≤ b.line))
  let detail_lines := (sorted_issues.take max_issues).map (fun issue =>
    let severity_label :=
      if issue.severity = Severity.error then "error" else "warn "
    let msg :=
      if 63 < issue.message.length then strTake issue.message 60 ++ "..."
      else issue.message
    "│ " ++ severity_label ++ "  line " ++ padRightTo (toString issue.line) 4 ++
      "  " ++ msg)
  let detail_lines :=
    if max_issues < result.issues.length then
      detail_lines ++
        ["│ ... and " ++ toString (result.issues.length - max_issues) ++ " more"]
    else detail_lines
  strJoin "\n" detail_lines

/-- `PythonCheckHooks._should_show_details`. -/
def shouldShowDetails (verbosity : String) (result : CheckResult) : Bool :=
  if verbosity = "detailed" then true
  else if verbosity = "minimal" then false
  else 0 < result.error_count

/-- The `write_tools` allow-list of `handle_tool_post`. -/
def writeTools : List String :=
  ["write_file", "edit_file", "Write", "Edit", "MultiEdit"]

/-- The hook's result object (`HookResult` of `amplifier_core`). -/
structure HookResult where
  action : String
  user_message : Option String := none
  user_message_level : Option String := none
  context_injection : Option String := none
  context_injection_role : Option String := none
deriving DecidableEq, Repr

/-- `_get_file_state` + `FileCheckState.update` over the `_file_states`
dict (modelled as an association list updated by shadowing): returns the
previous counts, the post-update state and the new dict. -/
def trackerUpdate (states : List (String × FileCheckState)) (key : String)
    (errors warnings : Nat) :
    (Nat × Nat) × FileCheckState × List (String × FileCheckState) :=
  let st := (states.lookup key).getD {}
  let r := st.update errors warnings
  (r.1, r.2, (key, r.2) :: states)

/-- `PythonCheckHooks.handle_tool_post`.  `matchesPatterns` is the oracle
for `_matches_patterns` (fnmatch), `fileExists` for `Path(file_path).exists()`,
`rawResult` for the `check_files` call, `displayPath` for
`_get_relative_path`, `resolve` for `Path(...).resolve()`. -/
def handleToolPost (cfg : HookConfig)
    (states : List (String × FileCheckState)) (toolName filePath : String)
    (matchesPatterns fileExists : Bool) (rawResult : CheckResult)
    (displayPath : String) (resolve : String → String) :
    HookResult × List (String × FileCheckState) :=
  if !cfg.enabled then ({ action := "continue" }, states)
  else if !writeTools.contains toolName then ({ action := "continue" }, states)
  else if filePath = "" then ({ action := "continue" }, states)
  else if !matchesPatterns then ({ action := "continue" }, states)
  else if !fileExists then ({ action := "continue" }, states)
  else
    let result : CheckResult :=
      { rawResult with issues := filterByLevel cfg.report_level rawResult.issues }
    let upd := trackerUpdate states (resolve filePath)
      result.error_count result.warning_count
    let prev_errors := upd.1.1
    let prev_warnings := upd.1.2
    let file_state := upd.2.1
    let states' := upd.2.2
    if result.clean then
      if cfg.show_clean then
        let fm := formatUserMessage cfg.verbosity result displayPath
          file_state prev_errors prev_warnings
        ({ action := "continue", user_message := some fm.1,
           user_message_level := some fm.2 }, states')
      else ({ action := "continue" }, states')
    else if 1 < file_state.check_count ∧
        result.error_count = prev_errors ∧
        result.warning_count = prev_warnings ∧
        cfg.verbosity ≠ "detailed" then
      ({ action := "continue" }, states')
    else
      let fm := formatUserMessage cfg.verbosity result displayPath
        file_state prev_errors prev_warnings
      let user_message :=
        if shouldShowDetails cfg.verbosity result then
          fm.1 ++ "\n" ++ formatDetailedIssues result 5
        else fm.1
      if cfg.auto_inject then
        let context_lines :=
          ["Python check found issues in " ++ displayPath ++ ":"] ++
          (result.issues.take 10).map (fun issue => "- " ++ issue.format_short) ++
          (if 10 < result.issues.length then
            ["  ... and " ++ toString (result.issues.length - 10) ++ " more issues"]
           else [])
        ({ action := "inject_context",
           context_injection := some (strJoin "\n" context_lines),
           context_injection_role := some "system",
           user_message := some user_message,
           user_message_level := some fm.2 }, states')
      else
        ({ action := "continue", user_message := some user_message,
           user_message_level := some fm.2 }, states')

/-- An info-only result: one info-severity issue, nothing else. -/
def infoOnlyResult : CheckResult :=
  { issues := [{ file := "", line := 0, column := 0, code := "NON-PYTHON",
                 message := "skipped", severity := Severity.info,
                 source := "python-check" }] }

/-- Claim C1 as stated: for every `CheckResult`, `exit_code` is 0 iff `clean`,
2 iff there are errors, 1 iff no errors and some warnings. -/
def c1Claim : Prop :=
  ∀ r : CheckResult,
    (r.exit_code = 0 ↔ r.clean = true) ∧
    (r.exit_code = 2 ↔ 0 < r.error_count) ∧
    (r.exit_code = 1 ↔ r.error_count = 0 ∧ 0 < r.warning_count)

/-- Claim C5 as stated: in a non-test, non-`__init__.py` file, a line
matching the `NotImplementedError` stub pattern is flagged as a
warning-severity STUB issue exactly when no abstract-method marker occurs in
one of the THREE immediately preceding lines (0-based indices
`lineNum - 4 .. lineNum - 2`). -/
def c5Claim : Prop :=
  ∀ (filePath line : String) (lines : List String) (lineNum : Nat),
    strContains (pyLower filePath) "test" = false →
    (pathName filePath == "__init__.py") = false →
    1 ≤ lineNum → lineNum ≤ lines.length →
    lines.getD (lineNum - 1) "" = line →
    reSearch notImplPat line = true →
    ((∃ iss ∈ checkFileForStubs filePath lines,
        iss.line = lineNum ∧ iss.code = "STUB" ∧
        iss.severity = Severity.warning) ↔
      (pyRange (lineNum - 4) (lineNum - 1)).any
        (fun i => abstractMarker (lines.getD i "")) = false)

/-- Claim C3 as stated: any repeat check (invocation count after update
exceeds 1) whose new error/warning counts equal the previous stored counts
at a verbosity other than "detailed" produces a plain continue with no user
message. -/
def c3Claim : Prop :=
  ∀ (cfg : HookConfig) (states : List (String × FileCheckState))
    (toolName filePath displayPath : String) (rawResult : CheckResult)
    (resolve : String → String),
    cfg.enabled = true → toolName ∈ writeTools → filePath ≠ "" →
    1 ≤ ((states.lookup (resolve filePath)).getD {}).check_count →
    ({ rawResult with
        issues := filterByLevel cfg.report_level rawResult.issues } :
      CheckResult).error_count =
      ((states.lookup (resolve filePath)).getD {}).error_count →
    ({ rawResult with
        issues := filterByLevel cfg.report_level rawResult.issues } :
      CheckResult).warning_count =
      ((states.lookup (resolve filePath)).getD {}).warning_count →
    cfg.verbosity ≠ "detailed" →
    (handleToolPost cfg states toolName filePath true true rawResult
      displayPath resolve).1 = { action := "continue" }

/-- A result holding a single error-severity lint issue. -/
def oneErrorResult : CheckResult :=
  { issues := [{ file := "f.py", line := 1, column := 1, code := "F821",
                 message := "undefined name", severity := Severity.error,
                 source := "ruff-lint" }] }

/-- A tracker state recording one previous clean check. -/
def seenOnceCleanState : FileCheckState :=
  { error_count := 0, warning_count := 0, check_count := 1 }

/-- C1 (counterexample): the claim as stated is false.  A result holding one
info-severity issue has `exit_code = 0` (the code only inspects error and
warning counts) yet is not `clean` (it has an issue). -/
theorem C1_counterexample : ¬ c1Claim := by
  intro h
  have h0 := (h infoOnlyResult).1
  have he : infoOnlyResult.exit_code = 0 := by rfl
  have hc : infoOnlyResult.clean = false := by rfl
  have := h0.mp he
  rw [hc] at this
  exact Bool.false_ne_true this

/-- C1 (amended): `exit_code` is 0 iff there are neither errors nor warnings
(info-only results also exit 0, so 0 is implied by — but not equivalent
to — `clean`); 2 iff there is at least one error; 1 iff there are no errors
and at least one warning. -/
theorem C1_exit_code_characterization (r : CheckResult) :
    (r.exit_code = 0 ↔ r.error_count = 0 ∧ r.warning_count = 0) ∧
    (r.exit_code = 2 ↔ 0 < r.error_count) ∧
    (r.exit_code = 1 ↔ r.error_count = 0 ∧ 0 < r.warning_count) := by
  unfold CheckResult.exit_code
  split
  · next h => refine ⟨?_, ?_, ?_⟩ <;> constructor <;> intro hx <;> omega
  · split
    · next h h' => refine ⟨?_, ?_, ?_⟩ <;> constructor <;> intro hx <;> omega
    · next h h' => refine ⟨?_, ?_, ?_⟩ <;> constructor <;> intro hx <;> omega

/-- C1 witness: the amended characterization evaluated at the info-only
result. -/
theorem C1_exit_code_characterization_witness :
    infoOnlyResult.exit_code = 0 :=
  (C1_exit_code_characterization infoOnlyResult).1.mpr (by constructor <;> rfl)

/-- C2: `merge` concatenates issues, takes the max of `files_checked`, unions
`checks_run` as a set; consequently it is commutative and associative up to
multiset equality of issues (and the other two fields are commutative and
associative on the nose / as sets). -/
theorem C2_merge_properties (a b c : CheckResult) :
    (a.merge b).issues = a.issues ++ b.issues ∧
    (a.merge b).files_checked = max a.files_checked b.files_checked ∧
    (∀ x, x ∈ (a.merge b).checks_run ↔ x ∈ a.checks_run ∨ x ∈ b.checks_run) ∧
    ((a.merge b).issues : Multiset Issue) = ((b.merge a).issues : Multiset Issue) ∧
    ((a.merge b).merge c).issues = (a.merge (b.merge c)).issues ∧
    ((a.merge b).merge c).files_checked = (a.merge (b.merge c)).files_checked ∧
    (∀ x, x ∈ ((a.merge b).merge c).checks_run ↔ x ∈ (a.merge (b.merge c)).checks_run) := by
  refine ⟨rfl, rfl, ?_, ?_, ?_, ?_, ?_⟩
  · intro x
    simp [CheckResult.merge, List.mem_dedup]
  · exact Quot.sound List.perm_append_comm
  · simp [CheckResult.merge, List.append_assoc]
  · simp [CheckResult.merge, Nat.max_assoc]
  · intro x
    simp [CheckResult.merge, List.mem_dedup]
    tauto

/-- C9: the three severity counters partition the issue list — their sum is
the total number of issues, because `Severity` has exactly the three members
error, warning, info. -/
theorem C9_counts_partition (r : CheckResult) :
    r.error_count + r.warning_count + r.info_count = r.issues.length := by
  unfold CheckResult.error_count CheckResult.warning_count CheckResult.info_count
  induction r.issues with
  | nil => rfl
  | cons i l ih =>
    cases hs : i.severity <;> simp [List.filter, hs] <;> omega

/-! ### Substring helper lemmas -/

lemma containsSub_eq_true_of_infix {s sub : List Char} (h : sub <:+: s) :
    containsSub s sub = true := by
  induction s with
  | nil =>
    rw [List.infix_nil] at h
    subst h
    rfl
  | cons c s' ih =>
    rcases List.infix_cons_iff.mp h with hp | hi
    · simp [containsSub, List.isPrefixOf_iff_prefix, hp]
    · simp [containsSub, ih hi]

lemma strContains_sandwich (a mid b : String) :
    strContains (a ++ mid ++ b) mid = true := by
  apply containsSub_eq_true_of_infix
  exact ⟨a.toList, b.toList, by simp⟩

/-! ### C5 : stub-scanner suppression window -/

/-- C5 (counterexample): the claim as stated is false.  With the marker on
the third line above the `raise` (`["@abstractmethod", "", "",
"raise NotImplementedError"]`, line 4), the claim says the line is
suppressed, but the code's window `range(max(0, line_num - 3), line_num)`
covers only the current line and the TWO lines above it, so the line IS
flagged. -/
theorem C5_counterexample : ¬ c5Claim := by
  intro h
  have hiff := h "a.py" "raise NotImplementedError"
    ["@abstractmethod", "", "", "raise NotImplementedError"] 4
    (by decide) (by decide) (by decide) (by decide) (by decide) (by decide)
  exact absurd (hiff.mp (by decide)) (by decide)

/-- C5 (amended): with the same side conditions (and the line containing the
literal `NotImplementedError` and no `pass` / no bare `...` body, so no other
legitimacy heuristic can fire), the line is flagged as a warning-severity
STUB issue exactly when no abstract-method marker occurs in the code's
window — the current line or the TWO immediately preceding lines (0-based
indices `lineNum - 3 .. lineNum - 1`).  In particular a `raise
NotImplementedError` directly below a marker line is suppressed, and the
same line with no marker above is flagged. -/
theorem C5_stub_suppression_window
    (filePath line : String) (lines : List String) (lineNum : Nat)
    (hTest : strContains (pyLower filePath) "test" = false)
    (hInit : (pathName filePath == "__init__.py") = false)
    (hNum : 1 ≤ lineNum) (hLen : lineNum ≤ lines.length)
    (hLine : lines.getD (lineNum - 1) "" = line)
    (hMatch : reSearch notImplPat line = true)
    (hNIE : strContains line "NotImplementedError" = true)
    (hPass : strContains line "pass" = false)
    (hTrim1 : (pyStrip line == "pass") = false)
    (hTrim2 : (pyStrip line == "...") = false) :
    (∃ iss ∈ checkFileForStubs filePath lines,
        iss.line = lineNum ∧ iss.code = "STUB" ∧
        iss.severity = Severity.warning) ↔
      (pyRange (lineNum - 3) lineNum).any
        (fun i => abstractMarker (lines.getD i "")) = false := by
  have hlegit : isLegitimatePattern filePath lineNum line lines =
      (pyRange (lineNum - 3) lineNum).any
        (fun i => abstractMarker (lines.getD i "")) := by
    unfold isLegitimatePattern
    simp [hTest, hInit, hNIE, hPass, hTrim1, hTrim2]
  constructor
  · rintro ⟨iss, hmem, hline, hcode, hsev⟩
    obtain ⟨i, hi, hiss⟩ := List.mem_flatMap.mp hmem
    have hline2 : iss.line = i + 1 := by
      simp only [lineStubIssues, List.mem_map] at hiss
      obtain ⟨pd, _, heq⟩ := hiss
      rw [← heq]
    have hieq : i = lineNum - 1 := by omega
    subst hieq
    rw [hLine] at hiss
    by_contra hany
    have hany' : (pyRange (lineNum - 3) lineNum).any
        (fun i => abstractMarker (lines.getD i "")) = true := by
      cases hcase : (pyRange (lineNum - 3) lineNum).any
          (fun i => abstractMarker (lines.getD i "")) with
      | false => exact absurd hcase hany
      | true => rfl
    have hleg : isLegitimatePattern filePath lineNum line lines = true := by
      rw [hlegit, hany']
    have : lineStubIssues filePath lines (lineNum - 1 + 1) line = [] := by
      have he : lineNum - 1 + 1 = lineNum := by omega
      rw [he]
      simp [lineStubIssues, hleg]
    rw [this] at hiss
    exact absurd hiss (List.not_mem_nil iss)
  · intro hany
    have hleg : isLegitimatePattern filePath lineNum line lines = false := by
      rw [hlegit, hany]
    have hmemP : (notImplPat, "NotImplementedError") ∈ stubPatterns := by decide
    have hcond : (notImplPat, "NotImplementedError") ∈
        stubPatterns.filter (fun pd =>
          reSearch pd.1 line &&
            !isLegitimatePattern filePath lineNum line lines) := by
      rw [List.mem_filter]
      exact ⟨hmemP, by simp [hMatch, hleg]⟩
    refine ⟨{ file := filePath, line := lineNum, column := 1, code := "STUB",
              message := "NotImplementedError" ++ ": " ++ strTake (pyStrip line) 60,
              severity := Severity.warning, source := "stub-check",
              suggestion := some "Remove placeholder or implement functionality" },
            ?_, rfl, rfl, rfl⟩
    apply List.mem_flatMap.mpr
    refine ⟨lineNum - 1, List.mem_range.mpr (by omega), ?_⟩
    have he : lineNum - 1 + 1 = lineNum := by omega
    rw [he, hLine]
    exact List.mem_map_of_mem _ hcond

/-- C5 witness: a `raise NotImplementedError` directly under an
`@abstractmethod` line is not flagged; the same line under an unrelated line
is flagged as a warning-severity STUB issue. -/
theorem C5_stub_suppression_window_witness :
    (¬ ∃ iss ∈ checkFileForStubs "a.py"
        ["@abstractmethod", "raise NotImplementedError"],
      iss.line = 2 ∧ iss.code = "STUB" ∧ iss.severity = Severity.warning) ∧
    (∃ iss ∈ checkFileForStubs "a.py" ["x = 1", "raise NotImplementedError"],
      iss.line = 2 ∧ iss.code = "STUB" ∧ iss.severity = Severity.warning) := by
  constructor
  · intro hf
    have := (C5_stub_suppression_window "a.py" "raise NotImplementedError"
      ["@abstractmethod", "raise NotImplementedError"] 2
      (by decide) (by decide) (by decide) (by decide) rfl (by decide)
      (by decide) (by decide) (by decide) (by decide)).mp hf
    exact absurd this (by decide)
  · exact (C5_stub_suppression_window "a.py" "raise NotImplementedError"
      ["x = 1", "raise NotImplementedError"] 2
      (by decide) (by decide) (by decide) (by decide) rfl (by decide)
      (by decide) (by decide) (by decide) (by decide)).mpr (by decide)

/-- C6: every pyright diagnostic with zero-based start line `l` and start
character `c` is translated into a canonical issue positioned at one-based
`(l + 1, c + 1)`, and that issue is what the type-check runner returns. -/
theorem C6_pyright_coordinate_transform
    (diags : List PyrightDiag) (d : PyrightDiag) (hd : d ∈ diags)
    (l c : Nat) (hl : d.startLine = some l) (hc : d.startChar = some c) :
    pyrightIssueOfDiag d ∈ (runPyright (Except.ok diags)).issues ∧
    (pyrightIssueOfDiag d).line = l + 1 ∧
    (pyrightIssueOfDiag d).column = c + 1 := by
  refine ⟨List.mem_map_of_mem _ hd, ?_, ?_⟩ <;>
    simp [pyrightIssueOfDiag, hl, hc]

/-- C6 witness: a raw (0,0) diagnostic becomes (1,1) and a raw (9,4)
diagnostic becomes (10,5). -/
theorem C6_pyright_coordinate_transform_witness :
    (pyrightIssueOfDiag { startLine := some 0, startChar := some 0 }).line = 1 ∧
    (pyrightIssueOfDiag { startLine := some 0, startChar := some 0 }).column = 1 ∧
    (pyrightIssueOfDiag { startLine := some 9, startChar := some 4 }).line = 10 ∧
    (pyrightIssueOfDiag { startLine := some 9, startChar := some 4 }).column = 5 := by
  have h1 := C6_pyright_coordinate_transform
    [{ startLine := some 0, startChar := some 0 }]
    { startLine := some 0, startChar := some 0 }
    (by simp) 0 0 rfl rfl
  have h2 := C6_pyright_coordinate_transform
    [{ startLine := some 9, startChar := some 4 }]
    { startLine := some 9, startChar := some 4 }
    (by simp) 9 4 rfl rfl
  exact ⟨h1.2.1, h1.2.2, h2.2.1, h2.2.2⟩

/-- C7: on a non-empty path list with no directory and no `.py`/`.pyi`
extension, the aggregator returns the sentinel result — exactly one
info-severity `NON-PYTHON` issue naming every skipped file, an empty
`checks_run` and zero files checked — regardless of any runner launch
outcome (no runner is consulted). -/
theorem C7_all_paths_skipped
    (cfg : CheckConfig) (cwd : String) (isDir : String → Bool)
    (countPythonFiles : List String → Nat) (fix : Bool)
    (launchFormat : List String → Except Unit (Int × List String))
    (launchLint : List String → Except Unit (List RuffItem))
    (launchPyright : List String → Except Unit (List PyrightDiag))
    (runStubCheck : List String → CheckResult)
    (paths : List String) (hne : paths ≠ [])
    (hall : ∀ p ∈ paths, isDir p = false ∧
      pathSuffix p ≠ ".py" ∧ pathSuffix p ≠ ".pyi") :
    check_files cfg cwd isDir countPythonFiles fix
        launchFormat launchLint launchPyright runStubCheck paths =
      { issues := [nonPythonSentinel paths], files_checked := 0,
        checks_run := [] } ∧
    (nonPythonSentinel paths).severity = Severity.info ∧
    (nonPythonSentinel paths).code = "NON-PYTHON" ∧
    strContains (nonPythonSentinel paths).message
      (String.intercalate ", " paths) = true := by
  have hval : ∀ p ∈ paths, isValidPath isDir p = false := by
    intro p hp
    obtain ⟨h1, h2, h3⟩ := hall p hp
    simp [isValidPath, h1, h2, h3]
  have hpe : paths.isEmpty = false := by
    cases paths with
    | nil => exact absurd rfl hne
    | cons a l => rfl
  have hfil : paths.filter (isValidPath isDir) = [] := by
    rw [List.filter_eq_nil_iff]
    intro p hp
    simp [hval p hp]
  have hfil2 : paths.filter (fun p => !isValidPath isDir p) = paths := by
    rw [List.filter_eq_self]
    intro p hp
    simp [hval p hp]
  refine ⟨?_, rfl, rfl, ?_⟩
  · unfold check_files
    simp [hpe, hfil, hfil2]
  · show strContains
      ("No Python files to check. Skipped " ++ toString paths.length ++
        " non-Python file(s): " ++ String.intercalate ", " paths ++
        ". python_check only supports .py and .pyi files.")
      (String.intercalate ", " paths) = true
    have := strContains_sandwich
      ("No Python files to check. Skipped " ++ toString paths.length ++
        " non-Python file(s): ")
      (String.intercalate ", " paths)
      ". python_check only supports .py and .pyi files."
    rw [← this]

/-- C7 witness: the sentinel behaviour at the concrete input `["b.ts"]`. -/
theorem C7_all_paths_skipped_witness :
    check_files {} "/cwd" (fun _ => false) (fun _ => 0) false
        (fun _ => Except.ok (0, [])) (fun _ => Except.ok [])
        (fun _ => Except.ok []) (fun _ => {}) ["b.ts"] =
      { issues := [nonPythonSentinel ["b.ts"]], files_checked := 0,
        checks_run := [] } :=
  (C7_all_paths_skipped {} "/cwd" (fun _ => false) (fun _ => 0) false
    (fun _ => Except.ok (0, [])) (fun _ => Except.ok [])
    (fun _ => Except.ok []) (fun _ => {}) ["b.ts"] (by simp)
    (by intro p hp; simp at hp; subst hp; refine ⟨rfl, ?_, ?_⟩ <;> decide)).1

/-- C8: when the subprocess launch raises `FileNotFoundError`, each external
runner returns exactly one error-severity `TOOL-NOT-FOUND` issue whose
message carries a remediation hint, with `checks_run` containing the
runner's own source name — it never propagates the exception. -/
theorem C8_tool_not_found (fix : Bool) :
    runRuffLint fix (Except.error ()) =
      { issues := [{ file := "", line := 0, column := 0,
                     code := "TOOL-NOT-FOUND",
                     message := "ruff not found. Install with: uv add ruff",
                     severity := Severity.error, source := "ruff-lint" }],
        files_checked := 0, checks_run := ["ruff-lint"] } ∧
    runRuffFormat fix (Except.error ()) =
      { issues := [{ file := "", line := 0, column := 0,
                     code := "TOOL-NOT-FOUND",
                     message := "ruff not found. Install with: uv add ruff",
                     severity := Severity.error, source := "ruff-format" }],
        files_checked := 0, checks_run := ["ruff-format"] } ∧
    runPyright (Except.error ()) =
      { issues := [{ file := "", line := 0, column := 0,
                     code := "TOOL-NOT-FOUND",
                     message := "pyright not found. Install with: uv add pyright",
                     severity := Severity.error, source := "pyright" }],
        files_checked := 0, checks_run := ["pyright"] } ∧
    strContains "ruff not found. Install with: uv add ruff" "Install with" = true ∧
    strContains "pyright not found. Install with: uv add pyright" "Install with" = true := by
  refine ⟨rfl, rfl, rfl, ?_, ?_⟩ <;> rfl

/-! ### String-equality helpers for message containment -/

lemma strData_append (a b : String) : (a ++ b).data = a.data ++ b.data := rfl

lemma stringDataEq {a b : String} (h : a.data = b.data) : a = b := by
  cases a
  cases b
  cases h
  rfl

lemma strContains_of_eq_append {s : String} (a mid b : String)
    (h : s = a ++ mid ++ b) : strContains s mid = true := by
  rw [h]
  exact strContains_sandwich a mid b

/-! ### C3, C4, C10 : hook handler behaviour -/

/-- C3 (counterexample): the claim as stated is false for clean repeat
checks.  With `show_clean` on (the default), a second check of a file that
was clean before and is clean again — counts (0,0) equal to the previous
(0,0), normal verbosity — still emits a "clean" user message, because the
clean branch returns before the redundancy test is reached. -/
theorem C3_counterexample : ¬ c3Claim := by
  intro h
  have := h {} [("f.py", seenOnceCleanState)] "Write" "f.py" "f.py" {}
    (fun p => p) rfl (by decide) (by decide) (by decide) (by decide)
    (by decide) (by decide)
  exact absurd this (by decide)

/-- C3 (amended): redundancy suppression as the code implements it — for a
check whose POST-FILTER result still has at least one issue, if the stored
invocation count after update exceeds 1, the new error and warning counts
equal the previous stored counts and verbosity is not "detailed", the hook
returns a plain continue with no user message; at verbosity "detailed" the
same repeated check still renders a user message.  (Clean results never
reach this test: see C10.) -/
theorem C3_redundancy_suppression
    (cfg : HookConfig) (states : List (String × FileCheckState))
    (toolName filePath displayPath : String) (rawResult : CheckResult)
    (resolve : String → String)
    (henabled : cfg.enabled = true) (htool : toolName ∈ writeTools)
    (hpath : filePath ≠ "")
    (hissues : filterByLevel cfg.report_level rawResult.issues ≠ [])
    (hcount : 1 ≤ ((states.lookup (resolve filePath)).getD {}).check_count)
    (herr : ({ rawResult with
        issues := filterByLevel cfg.report_level rawResult.issues } :
      CheckResult).error_count =
      ((states.lookup (resolve filePath)).getD {}).error_count)
    (hwarn : ({ rawResult with
        issues := filterByLevel cfg.report_level rawResult.issues } :
      CheckResult).warning_count =
      ((states.lookup (resolve filePath)).getD {}).warning_count) :
    (cfg.verbosity ≠ "detailed" →
      (handleToolPost cfg states toolName filePath true true rawResult
        displayPath resolve).1 = { action := "continue" }) ∧
    (cfg.verbosity = "detailed" →
      (handleToolPost cfg states toolName filePath true true rawResult
        displayPath resolve).1.user_message ≠ none) := by
  have hcont : writeTools.contains toolName = true :=
    List.elem_eq_true_of_mem htool
  have hcleanB : ({ rawResult with
      issues := filterByLevel cfg.report_level rawResult.issues } :
    CheckResult).clean = false := by
    simp [CheckResult.clean, List.length_eq_zero, hissues]
  constructor
  · intro hver
    unfold handleToolPost
    simp only [henabled, hcont, Bool.not_true, Bool.false_eq_true, if_false,
      if_neg hpath, hcleanB, trackerUpdate, FileCheckState.update]
    rw [if_pos]
    refine ⟨?_, herr, hwarn, hver⟩
    omega
  · intro hver
    unfold handleToolPost
    simp only [henabled, hcont, Bool.not_true, Bool.false_eq_true, if_false,
      if_neg hpath, hcleanB, trackerUpdate, FileCheckState.update]
    rw [if_neg]
    · cases hai : cfg.auto_inject <;> simp [hai]
    · rintro ⟨-, -, -, h4⟩
      exact h4 hver

/-- C3 witness: two consecutive checks of `f.py` each yielding one error and
no warnings — at normal verbosity the second check is a plain continue with
no message; at detailed verbosity the second check still carries a user
message. -/
theorem C3_redundancy_suppression_witness :
    (handleToolPost {} ((handleToolPost {} [] "Write" "f.py" true true
        oneErrorResult "f.py" (fun p => p)).2) "Write" "f.py" true true
        oneErrorResult "f.py" (fun p => p)).1 = { action := "continue" } ∧
    (handleToolPost { verbosity := "detailed" }
        ((handleToolPost { verbosity := "detailed" } [] "Write" "f.py" true
          true oneErrorResult "f.py" (fun p => p)).2) "Write" "f.py" true
        true oneErrorResult "f.py" (fun p => p)).1.user_message ≠ none := by
  constructor
  · exact (C3_redundancy_suppression {}
      ((handleToolPost {} [] "Write" "f.py" true true oneErrorResult "f.py"
        (fun p => p)).2) "Write" "f.py" "f.py" oneErrorResult (fun p => p)
      rfl (by decide) (by decide) (by decide) (by decide) (by decide)
      (by decide)).1 (by decide)
  · exact (C3_redundancy_suppression { verbosity := "detailed" }
      ((handleToolPost { verbosity := "detailed" } [] "Write" "f.py" true
        true oneErrorResult "f.py" (fun p => p)).2) "Write" "f.py" "f.py"
      oneErrorResult (fun p => p) rfl (by decide) (by decide) (by decide)
      (by decide) (by decide) (by decide)).2 rfl

/-- C10: redundancy suppression never applies to clean results — whenever
the post-filter result has zero issues and `show_clean` is enabled, the
handler returns a continue carrying a user message containing ": clean" at
info level, for every state (including repeats with unchanged (0,0) counts)
and every verbosity. -/
theorem C10_clean_message_never_suppressed
    (cfg : HookConfig) (states : List (String × FileCheckState))
    (toolName filePath displayPath : String) (rawResult : CheckResult)
    (resolve : String → String)
    (henabled : cfg.enabled = true) (htool : toolName ∈ writeTools)
    (hpath : filePath ≠ "")
    (hclean : filterByLevel cfg.report_level rawResult.issues = [])
    (hshow : cfg.show_clean = true) :
    ∃ m, (handleToolPost cfg states toolName filePath true true rawResult
        displayPath resolve).1 =
      { action := "continue", user_message := some m,
        user_message_level := some "info" } ∧
      strContains m ": clean" = true := by
  have hcont : writeTools.contains toolName = true :=
    List.elem_eq_true_of_mem htool
  have hcleanB : ({ rawResult with
      issues := filterByLevel cfg.report_level rawResult.issues } :
    CheckResult).clean = true := by
    simp [CheckResult.clean, hclean]
  unfold handleToolPost
  simp only [henabled, hcont, Bool.not_true, Bool.false_eq_true, if_false,
    if_neg hpath, hcleanB, hshow, if_true, trackerUpdate,
    FileCheckState.update]
  unfold formatUserMessage
  simp only [hcleanB, if_true, getSeverityIcon, ICONS]
  split
  · refine ⟨_, rfl, ?_⟩
    refine strContains_of_eq_append ("✓" ++ " " ++ displayPath) ": clean"
      (" (was " ++
        toString (((states.lookup (resolve filePath)).getD {}).error_count +
          ((states.lookup (resolve filePath)).getD {}).warning_count) ++
        " issues)") (stringDataEq ?_)
    simp only [strData_append, List.append_assoc]
    rfl
  · refine ⟨_, rfl, ?_⟩
    refine strContains_of_eq_append ("✓" ++ " " ++ displayPath) ": clean" ""
      (stringDataEq ?_)
    simp only [strData_append, List.append_assoc, List.append_nil]

/-- C10 witness: a clean repeat check at normal verbosity with `show_clean`
on emits a clean message. -/
theorem C10_clean_message_never_suppressed_witness :
    ∃ m, (handleToolPost {} [("f.py", seenOnceCleanState)] "Write" "f.py"
        true true {} "f.py" (fun p => p)).1 =
      { action := "continue", user_message := some m,
        user_message_level := some "info" } ∧
      strContains m ": clean" = true :=
  C10_clean_message_never_suppressed {} [("f.py", seenOnceCleanState)]
    "Write" "f.py" "f.py" {} (fun p => p) rfl (by decide) (by decide) rfl rfl

/-- C4: for a file never seen by the tracker, the first `update(F, 2, 1)`
returns previous counts (0,0) and leaves the invocation count at 1; the
subsequent `update(F, 0, 0)` returns (2,1) and leaves the invocation count
at 2; and the clean message rendered for that second check carries the
"clean (was 3 issues)" progress phrase. -/
theorem C4_tracker_delta_and_progress_message
    (states : List (String × FileCheckState)) (resolve : String → String)
    (F displayPath : String)
    (hnew : states.lookup (resolve F) = none) :
    (trackerUpdate states (resolve F) 2 1).1 = (0, 0) ∧
    (trackerUpdate states (resolve F) 2 1).2.1.check_count = 1 ∧
    (trackerUpdate (trackerUpdate states (resolve F) 2 1).2.2
      (resolve F) 0 0).1 = (2, 1) ∧
    (trackerUpdate (trackerUpdate states (resolve F) 2 1).2.2
      (resolve F) 0 0).2.1.check_count = 2 ∧
    strContains
      (formatUserMessage "normal" {} displayPath
        (trackerUpdate (trackerUpdate states (resolve F) 2 1).2.2
          (resolve F) 0 0).2.1 2 1).1
      "clean (was 3 issues)" = true := by
  have h2 : (trackerUpdate states (resolve F) 2 1).2.2.lookup (resolve F) =
      some { error_count := 2, warning_count := 1, check_count :=
        ((states.lookup (resolve F)).getD {}).check_count + 1 } := by
    simp [trackerUpdate, FileCheckState.update, List.lookup]
  refine ⟨?_, ?_, ?_, ?_, ?_⟩
  · simp [trackerUpdate, FileCheckState.update, hnew]
  · simp [trackerUpdate, FileCheckState.update, hnew]
  · simp [trackerUpdate, FileCheckState.update, h2, hnew]
  · simp [trackerUpdate, FileCheckState.update, h2, hnew]
  · have hst : (trackerUpdate (trackerUpdate states (resolve F) 2 1).2.2
        (resolve F) 0 0).2.1 =
        { error_count := 0, warning_count := 0, check_count := 2 } := by
      simp [trackerUpdate, FileCheckState.update, h2, hnew]
    rw [hst]
    have hfm : (formatUserMessage "normal" {} displayPath
        { error_count := 0, warning_count := 0, check_count := 2 } 2 1).1 =
        "✓" ++ " " ++ displayPath ++ ": clean (was " ++ toString (2 + 1) ++
          " issues)" := by rfl
    rw [hfm]
    exact strContains_of_eq_append ("✓" ++ " " ++ displayPath ++ ": ")
      "clean (was 3 issues)" ""
      (stringDataEq (by
        simp only [strData_append, List.append_assoc, List.append_nil]
        rfl))

/-- C4 witness: the tracker delta and the progress message at the concrete
file `f.py`, starting from an empty tracker. -/
theorem C4_tracker_delta_and_progress_message_witness :
    (trackerUpdate [] "f.py" 2 1).1 = (0, 0) ∧
    (trackerUpdate [] "f.py" 2 1).2.1.check_count = 1 ∧
    (trackerUpdate (trackerUpdate [] "f.py" 2 1).2.2 "f.py" 0 0).1 = (2, 1) ∧
    (trackerUpdate (trackerUpdate [] "f.py" 2 1).2.2 "f.py" 0 0).2.1.check_count
      = 2 ∧
    strContains
      (formatUserMessage "normal" {} "f.py"
        (trackerUpdate (trackerUpdate [] "f.py" 2 1).2.2 "f.py" 0 0).2.1
        2 1).1
      "clean (was 3 issues)" = true :=
  C4_tracker_delta_and_progress_message [] (fun p => p) "f.py" "f.py" rfl

end PyCheck
